import Mathlib

/-!
Verification of the wyoming_universal_stt core against its specification.

Shallow embedding of the Python source:
  - backends/factory.py        : backend registry and platform auto-detection
  - backends/faster_whisper.py : FasterWhisperBackend
  - backends/mlx_whisper.py    : MLXWhisperBackend
  - backends/openai_whisper_api.py : OpenAIWhisperBackend
  - handler.py                 : WhisperEventHandler session state machine
  - __main__.py                : startup model auto-selection and Info building

Python-level effects are made explicit: engine calls become oracle inputs
(`Except Unit _` for calls that may throw), `os.getenv`/kwargs lookups become
`Option String` parameters, and the per-connection handler becomes a step
function on an explicit state record.
-/

namespace WyomingSTT

/-! ## Python string primitives

Python's truthiness, `str.strip`, `str.lower`, `in` (substring) and
`str.join` are re-implemented over `List Char` so that every theorem below
can be evaluated by the kernel on concrete inputs. -/

/-- Characters stripped by Python's `str.strip()` with no argument. -/
def pyIsSpace (c : Char) : Bool :=
  c == ' ' || c == '\t' || c == '\n' || c == '\x0d' || c == '\x0b' || c == '\x0c'

/-- Python `str.strip()`: drop leading and trailing whitespace. -/
def pyStrip (s : String) : String :=
  ⟨((s.data.dropWhile pyIsSpace).reverse.dropWhile pyIsSpace).reverse⟩

/-- Python `str.lower()` (ASCII case folding suffices for the inputs used by
the source: `platform.machine()` / `platform.system()` values). -/
def pyLower (s : String) : String :=
  ⟨s.data.map Char.toLower⟩

/-- Python truthiness of an optional string: `None` and `""` are falsy. -/
def pyTruthy : Option String → Bool
  | none => false
  | some s => !(s == "")

/-- Whether `pre` occurs at the head of `l`. -/
def listStarts : List Char → List Char → Bool
  | [], _ => true
  | _ :: _, [] => false
  | a :: as, b :: bs => a == b && listStarts as bs

/-- Whether `needle` occurs somewhere inside `hay`. -/
def listSub (needle : List Char) : List Char → Bool
  | [] => listStarts needle []
  | hay@(_ :: rest) => listStarts needle hay || listSub needle rest

/-- Python `needle in hay` on strings. -/
def strContains (hay needle : String) : Bool :=
  listSub needle.data hay.data

/-- Python `hay.startswith pre`. -/
def strStarts (hay pre : String) : Bool :=
  listStarts pre.data hay.data

/-- Python `sep.join texts`. -/
def pyJoin (sep : String) : List String → String
  | [] => ""
  | [x] => x
  | x :: y :: rest => x ++ sep ++ pyJoin sep (y :: rest)

/-! ## Factory auto-detection (backends/factory.py) -/

/-- Host platform as reported by Python's `platform` module:
`platform.machine()` and `platform.system()`. -/
structure HostPlatform where
  machine : String
  system : String
deriving DecidableEq

/-- Which of the three engine packages can be imported. -/
structure InstalledEngines where
  mlx_whisper : Bool
  faster_whisper : Bool
  whisper : Bool
deriving DecidableEq

/-- The Apple-silicon test of `detect_optimal_backend` (factory.py lines
49-53): `system == "darwin" and ("arm" in machine or "aarch" in machine)`
after lowering both strings. -/
def isAppleSilicon (p : HostPlatform) : Bool :=
  pyLower p.system == "darwin" &&
    (strContains (pyLower p.machine) "arm" || strContains (pyLower p.machine) "aarch")

/-- Embedding of `detect_optimal_backend` (factory.py lines 47-72). A failed
`import` is an unavailable engine; the final `raise ImportError` is the
`Except.error` case. -/
def detect_optimal_backend (p : HostPlatform) (inst : InstalledEngines) :
    Except Unit String :=
  if isAppleSilicon p && inst.mlx_whisper then Except.ok "mlx-whisper"
  else if inst.faster_whisper then Except.ok "faster-whisper"
  else if inst.whisper then Except.ok "openai-whisper"
  else Except.error ()

/-! ## Model auto-selection (__main__.py lines 96-104) -/

/-- The `is_arm` test of `__main__.main`:
`("arm" in machine) or ("aarch" in machine)` on the lowered machine string. -/
def isArmMachine (machine : String) : Bool :=
  strContains (pyLower machine) "arm" || strContains (pyLower machine) "aarch"

/-- Embedding of the model auto-selection block of `__main__.main`
(lines 99-104): only the sentinel "auto" is replaced. -/
def selectModelAuto (model backend machine : String) : String :=
  if model == "auto" then
    if backend == "mlx-whisper" then "mlx-community/whisper-tiny-mlx"
    else if isArmMachine machine then "tiny-int8" else "base-int8"
  else model

/-! ## Segments and backend transcription

Each backend's `transcribe` depends on an external engine call that may
throw; that call's outcome is an explicit oracle argument. The timestamp
fields (`start`/`end` floats) carried by the Python `Segment` classes are
never inspected by the handler or by any property below and are omitted. -/

/-- One normalized recognition segment: its text. -/
structure Segment where
  text : String
deriving DecidableEq

/-- Extra return value of faster_whisper's engine call (`segments, _info`);
discarded by the backend. -/
structure FwTranscriptionInfo where
  language : Option String
deriving DecidableEq

/-- Embedding of `FasterWhisperBackend.transcribe` (faster_whisper.py lines
28-35): the engine's segment iterator is returned as-is, with no
normalization and no exception handling, so an engine failure propagates. -/
def FasterWhisperBackend.transcribe
    (engine : Except Unit (List Segment × FwTranscriptionInfo)) :
    Except Unit (List Segment) :=
  match engine with
  | Except.error e => Except.error e
  | Except.ok (segments, _info) => Except.ok segments

/-- One entry of the `result['segments']` list returned by the mlx engine:
a dict whose `'text'` key may be missing (`segment.get('text', '')`). -/
structure MlxSegmentDict where
  text : Option String
deriving DecidableEq

/-- Shape of the mlx engine's return value: a dict with optional
`'segments'` and `'text'` keys, or something that is not a dict. -/
inductive MlxResult where
  | dict (segments : Option (List MlxSegmentDict)) (text : Option String)
  | nonDict
deriving DecidableEq

/-- The `for segment in result['segments']` loop of
`MLXWhisperBackend.transcribe` (mlx_whisper.py lines 76-84): strip each
entry's text and yield it only when non-empty. -/
def mlxSegmentsOf : List MlxSegmentDict → List Segment
  | [] => []
  | seg :: rest =>
    if pyStrip (seg.text.getD "") == "" then mlxSegmentsOf rest
    else ⟨pyStrip (seg.text.getD "")⟩ :: mlxSegmentsOf rest

/-- Embedding of `MLXWhisperBackend.transcribe` (mlx_whisper.py lines
38-104). The whole generator body is wrapped in `try/except`, and the
handler yields `Segment("")` on any engine failure, so this function never
raises: it returns a plain list. `'segments' in result and result['segments']`
requires the key present with a non-empty list; otherwise the `elif 'text'`
branch runs. -/
def MLXWhisperBackend.transcribe (engine : Except Unit MlxResult) : List Segment :=
  match engine with
  | Except.error _ => [⟨""⟩]
  | Except.ok MlxResult.nonDict => []
  | Except.ok (MlxResult.dict segments? text?) =>
    match segments? with
    | some (seg :: rest) => mlxSegmentsOf (seg :: rest)
    | _ =>
      match text? with
      | some t => let s := pyStrip t; if s == "" then [] else [⟨s⟩]
      | none => []

/-- One entry of `response.segments` from the OpenAI API client. -/
structure OpenAISegment where
  text : String
deriving DecidableEq

/-- Shape of the OpenAI API response: `segments` is `none` when the
attribute is absent or `None`, `some []` when present but empty. -/
structure OpenAIResponse where
  segments : Option (List OpenAISegment)
  text : String
deriving DecidableEq

/-- Embedding of `OpenAIWhisperBackend.transcribe` (openai_whisper_api.py
lines 41-78). Segment texts are yielded verbatim (no strip, no dropping);
`hasattr(response, 'segments') and response.segments` requires a non-empty
list; the `except` clause re-raises, so an engine failure propagates. -/
def OpenAIWhisperBackend.transcribe (engine : Except Unit OpenAIResponse) :
    Except Unit (List Segment) :=
  match engine with
  | Except.error e => Except.error e
  | Except.ok resp =>
    match resp.segments with
    | some (seg :: rest) => Except.ok ((seg :: rest).map fun sg => ⟨sg.text⟩)
    | _ => Except.ok [⟨resp.text⟩]

/-! ## Backend construction (C7) -/

/-- The ways backend construction fails in the source: a missing package
(`ImportError`) or a missing credential (`ValueError`). -/
inductive BackendInitError where
  | importError
  | missingCredential
deriving DecidableEq

/-- State retained by a constructed `OpenAIWhisperBackend` that the claims
inspect: the effective model name. -/
structure OpenAIBackendState where
  model_name : String
deriving DecidableEq

/-- Embedding of `OpenAIWhisperBackend.__init__` (openai_whisper_api.py
lines 19-39). `kwargs.get('api_key') or os.getenv('OPENAI_API_KEY')` uses
Python truthiness; an unknown model name is replaced by "whisper-1" with a
warning, not an error. -/
def OpenAIWhisperBackend.init (openaiInstalled : Bool) (model_name : String)
    (kwargs_api_key env_api_key : Option String) :
    Except BackendInitError OpenAIBackendState :=
  if !openaiInstalled then Except.error BackendInitError.importError
  else
    let api_key := if pyTruthy kwargs_api_key then kwargs_api_key else env_api_key
    if !pyTruthy api_key then Except.error BackendInitError.missingCredential
    else
      let valid_models := ["whisper-1"]
      if valid_models.contains model_name then Except.ok ⟨model_name⟩
      else Except.ok ⟨"whisper-1"⟩

/-- Embedding of `MLXWhisperBackend.__init__` (mlx_whisper.py lines 18-36),
returning the resolved `model_path`. An unknown model name falls back to
the tiny default, not an error. -/
def MLXWhisperBackend.init (mlxInstalled : Bool) (model_name : String) :
    Except BackendInitError String :=
  if !mlxInstalled then Except.error BackendInitError.importError
  else if strStarts model_name "mlx-community/" then Except.ok model_name
  else if ["tiny", "base", "small", "medium", "large"].contains model_name then
    Except.ok ("mlx-community/whisper-" ++ model_name ++ "-mlx")
  else Except.ok "mlx-community/whisper-tiny-mlx"

/-! ## Wyoming Info descriptor (__main__.py lines 140-160) -/

/-- Attribution record from the wyoming library: author name and URL. -/
structure Attribution where
  name : String
  url : String
deriving DecidableEq

/-- One advertised ASR model, as built by `__main__.main`. -/
structure AsrModel where
  name : String
  description : String
  attribution : Attribution
  installed : Bool
  languages : List String
  version : String
deriving DecidableEq

/-- One advertised ASR program, as built by `__main__.main`. -/
structure AsrProgram where
  name : String
  description : String
  attribution : Attribution
  installed : Bool
  version : String
  models : List AsrModel
deriving DecidableEq

/-- The wyoming `Info` capability descriptor served for Describe. -/
structure Info where
  asr : List AsrProgram
deriving DecidableEq

/-- Capability fields queried from the active backend at startup:
`get_attribution()`, `get_supported_languages()`, `get_version()`. -/
structure BackendDescriptor where
  attribution : Attribution
  supportedLanguages : List String
  version : String
deriving DecidableEq

/-- Embedding of the `Info` construction in `__main__.main` (lines 140-160),
from the backend name, the resolved model name, the server version and the
active backend's capability fields. -/
def buildWyomingInfo (backendName model_name serverVersion : String)
    (b : BackendDescriptor) : Info :=
  { asr := [{
      name := backendName
      description := "Whisper transcription using " ++ backendName
      attribution := b.attribution
      installed := true
      version := serverVersion
      models := [{
        name := model_name
        description := model_name
        attribution := b.attribution
        installed := true
        languages := b.supportedLanguages
        version := b.version }] }] }

/-! ## Session handler (handler.py) -/

/-- What one transcription passes to the backend (handler.py lines 71-86):
the session language, the configured initial prompt and the beam size. -/
structure TranscriptionRequest where
  language : Option String
  initial_prompt : Option String
  beam_size : Int
deriving DecidableEq

/-- Session-relevant state of `WhisperEventHandler`: the immutable
constructor inputs (`cli_args.language`, `initial_prompt`,
`cli_args.beam_size`, the cached `wyoming_info_event`) and the mutable
fields (`_language`, and `_wav_file` holding the open wave file's
rate/width/channels, `none` when closed). -/
structure HandlerState where
  cliLanguage : Option String
  initialPrompt : Option String
  beamSize : Int
  wyomingInfoEvent : Info
  language : Option String
  wavFile : Option (Nat × Nat × Nat)
deriving DecidableEq

/-- A fresh handler as built by `WhisperEventHandler.__init__` (handler.py
lines 24-43): `_language` starts as `cli_args.language`, no file is open. -/
def HandlerState.initial (info : Info) (cliLanguage initialPrompt : Option String)
    (beamSize : Int) : HandlerState :=
  { cliLanguage := cliLanguage
    initialPrompt := initialPrompt
    beamSize := beamSize
    wyomingInfoEvent := info
    language := cliLanguage
    wavFile := none }

/-- The inbound events `handle_event` dispatches on (audio chunk, audio
stop, Transcribe control, Describe, anything else). -/
inductive Ev where
  | audioChunk (rate width channels : Nat)
  | audioStop
  | transcribe (language : Option String)
  | describe
  | other
deriving DecidableEq

/-- Events the handler writes back to the client. -/
inductive OutEvent where
  | transcript (text : String)
  | info (i : Info)
deriving DecidableEq

/-- The segment-collection loop of `handle_event` (handler.py lines 89-95):
for each segment whose `text` is truthy, keep the stripped text when it is
non-empty. Every embedded segment has a `text` field, so the `hasattr`
test always passes. -/
def collectSegmentTexts : List Segment → List String
  | [] => []
  | seg :: rest =>
    if seg.text == "" then collectSegmentTexts rest
    else
      if pyStrip seg.text == "" then collectSegmentTexts rest
      else pyStrip seg.text :: collectSegmentTexts rest

/-- The spec's TranscriptResult, written from the spec's words for
comparison with the handler's computation: non-empty trimmed segment texts
joined by one space, in segment order. -/
def specTranscriptResult (segments : List Segment) : String :=
  pyJoin " " ((segments.map fun g => pyStrip g.text).filter fun t => !(t == ""))

/-- Result of one `handle_event` call: the events written, the new handler
state, and the boolean returned to the wyoming server loop (returning
`false` ends event handling for the connection). -/
structure HandleOut where
  emitted : List OutEvent
  state : HandlerState
  keepOpen : Bool
deriving DecidableEq

/-- Embedding of `WhisperEventHandler.handle_event` (handler.py lines
45-124). The backend call together with the consumption of its lazy segment
sequence is the oracle `backend`; its `Except.error` is an exception raised
by the call or during consumption, caught at lines 100-102 and degraded to
an empty text. An `Except.error` of the whole result is the `assert` at
line 62 failing (AudioStop with no open file), which propagates.
`cli_args` always carries `beam_size` (argparse default), so the `hasattr`
test at line 78 always passes. -/
def handle_event (s : HandlerState)
    (backend : TranscriptionRequest → Except Unit (List Segment)) :
    Ev → Except Unit HandleOut
  | Ev.audioChunk rate width channels =>
    match s.wavFile with
    | none => Except.ok ⟨[], { s with wavFile := some (rate, width, channels) }, true⟩
    | some _ => Except.ok ⟨[], s, true⟩
  | Ev.audioStop =>
    match s.wavFile with
    | none => Except.error ()
    | some _ =>
      let text :=
        match backend ⟨s.language, s.initialPrompt, s.beamSize⟩ with
        | Except.ok segments => pyJoin " " (collectSegmentTexts segments)
        | Except.error _ => ""
      Except.ok ⟨[OutEvent.transcript text],
        { s with wavFile := none, language := s.cliLanguage }, false⟩
  | Ev.transcribe language =>
    if pyTruthy language then Except.ok ⟨[], { s with language := language }, true⟩
    else Except.ok ⟨[], s, true⟩
  | Ev.describe => Except.ok ⟨[OutEvent.info s.wyomingInfoEvent], s, true⟩
  | Ev.other => Except.ok ⟨[], s, true⟩

/-- The wyoming server loop for one connection: feed events until
`handle_event` returns `false` or raises, collecting everything written. -/
def runEvents (backend : TranscriptionRequest → Except Unit (List Segment)) :
    HandlerState → List Ev → List OutEvent × HandlerState
  | s, [] => ([], s)
  | s, e :: rest =>
    match handle_event s backend e with
    | Except.error _ => ([], s)
    | Except.ok out =>
      if out.keepOpen then
        let next := runEvents backend out.state rest
        (out.emitted ++ next.1, next.2)
      else (out.emitted, out.state)

/-! ## Concrete sample values, used by witness theorems -/

/-- A concrete backend capability record (the faster-whisper attribution
from faster_whisper.py lines 43-47). -/
def demoDescriptor : BackendDescriptor :=
  ⟨⟨"Guillaume Klein", "https://github.com/guillaumekln/faster-whisper/"⟩,
    ["en"], "1.0"⟩

/-- A concrete startup descriptor. -/
def demoInfo : Info :=
  buildWyomingInfo "faster-whisper" "tiny-int8" "1.0.0" demoDescriptor

/-- A concrete freshly-constructed handler state. -/
def demoState : HandlerState :=
  HandlerState.initial demoInfo (some "en") none 5

end WyomingSTT

namespace WyomingSTT

/-! ### Helper lemmas about `pyStrip` -/

theorem dropWhile_cons_false {p : Char → Bool} {c : Char} :
    ∀ {l rest : List Char}, l.dropWhile p = c :: rest → p c = false := by
  intro l
  induction l with
  | nil => intro rest h; simp at h
  | cons a as ih =>
    intro rest h
    by_cases hp : p a
    · exact ih (by simpa [List.dropWhile_cons_of_pos hp] using h)
    · rw [List.dropWhile_cons_of_neg hp] at h
      cases h
      simpa using hp

theorem mem_dropWhile_of_not {p : Char → Bool} {x : Char} :
    ∀ {l : List Char}, x ∈ l → p x = false → x ∈ l.dropWhile p := by
  intro l
  induction l with
  | nil => intro h _; cases h
  | cons a as ih =>
    intro hmem hpx
    by_cases hp : p a
    · rw [List.dropWhile_cons_of_pos hp]
      rcases List.mem_cons.mp hmem with heq | htail
      · subst heq; rw [hp] at hpx; cases hpx
      · exact ih htail hpx
    · rw [List.dropWhile_cons_of_neg hp]
      exact hmem

/-- Unfolding equation for the character list underlying `pyStrip`. -/
theorem pyStrip_data (s : String) :
    (pyStrip s).data =
      ((s.data.dropWhile pyIsSpace).reverse.dropWhile pyIsSpace).reverse := rfl

/-- A list containing a non-whitespace character strips (on both sides) to a
non-empty list. -/
theorem strip_ne_nil_of_mem {x : Char} {L : List Char}
    (hx : x ∈ L) (hpx : pyIsSpace x = false) :
    ((L.dropWhile pyIsSpace).reverse.dropWhile pyIsSpace).reverse ≠ [] := by
  intro h
  have h1 : x ∈ L.dropWhile pyIsSpace := mem_dropWhile_of_not hx hpx
  have h2 : x ∈ (L.dropWhile pyIsSpace).reverse := List.mem_reverse.mpr h1
  have h3 : x ∈ (L.dropWhile pyIsSpace).reverse.dropWhile pyIsSpace :=
    mem_dropWhile_of_not h2 hpx
  rw [List.reverse_eq_nil_iff.mp h] at h3
  cases h3

/-- If stripping leaves a non-empty string, stripping the result again also
leaves it non-empty (the result contains a non-whitespace character). -/
theorem pyStrip_strip_ne_empty {t : String} (h : pyStrip t ≠ "") :
    pyStrip (pyStrip t) ≠ "" := by
  rcases hEq : (t.data.dropWhile pyIsSpace).reverse.dropWhile pyIsSpace with _ | ⟨c, rest⟩
  · exact absurd (String.ext (by rw [pyStrip_data, hEq]; rfl)) h
  have hc : pyIsSpace c = false := dropWhile_cons_false hEq
  have hmem : c ∈ (pyStrip t).data := by
    rw [pyStrip_data, hEq]
    exact List.mem_reverse.mpr (List.mem_cons_self c rest)
  intro hcontra
  exact strip_ne_nil_of_mem hmem hc
    (by rw [← pyStrip_data (pyStrip t)]; rw [hcontra])

/-- Every segment yielded by the mlx segments loop has non-empty stripped
text. -/
theorem mlxSegmentsOf_all_stripped (l : List MlxSegmentDict) :
    ((mlxSegmentsOf l).all fun s => !(pyStrip s.text == "")) = true := by
  induction l with
  | nil => rfl
  | cons seg rest ih =>
    unfold mlxSegmentsOf
    by_cases h : pyStrip (seg.text.getD "") == ""
    · simpa [h] using ih
    · have hne : pyStrip (seg.text.getD "") ≠ "" := by simpa using h
      have h2 := pyStrip_strip_ne_empty hne
      rw [if_neg h, List.all_cons]
      simp only [Bool.and_eq_true]
      exact ⟨by simpa using h2, ih⟩

/-- C5: backend auto-detection is deterministic first-match: the Apple-native
engine exactly when on Apple silicon with mlx available, else faster-whisper
when available, else openai-whisper when available, else failure. -/
theorem detect_optimal_backend_first_match (p : HostPlatform) (inst : InstalledEngines) :
    (detect_optimal_backend p inst = Except.ok "mlx-whisper" ↔
      (isAppleSilicon p = true ∧ inst.mlx_whisper = true)) ∧
    (¬(isAppleSilicon p = true ∧ inst.mlx_whisper = true) →
      inst.faster_whisper = true →
      detect_optimal_backend p inst = Except.ok "faster-whisper") ∧
    (¬(isAppleSilicon p = true ∧ inst.mlx_whisper = true) →
      inst.faster_whisper = false → inst.whisper = true →
      detect_optimal_backend p inst = Except.ok "openai-whisper") ∧
    (inst.mlx_whisper = false → inst.faster_whisper = false → inst.whisper = false →
      detect_optimal_backend p inst = Except.error ()) := by
  unfold detect_optimal_backend
  cases hA : isAppleSilicon p <;>
    cases hM : inst.mlx_whisper <;>
      cases hF : inst.faster_whisper <;>
        cases hW : inst.whisper <;>
          simp [hA, hM, hF, hW]

/-- C5 witness: on an x86 Linux host with only the baseline engine installed,
detection returns "openai-whisper". -/
theorem detect_optimal_backend_first_match_witness :
    detect_optimal_backend ⟨"x86_64", "Linux"⟩ ⟨false, false, true⟩ =
      Except.ok "openai-whisper" :=
  (detect_optimal_backend_first_match ⟨"x86_64", "Linux"⟩ ⟨false, false, true⟩).2.2.1
    (by decide) rfl rfl

/-- C6: model auto-selection only replaces the sentinel "auto"; for "auto"
the Apple-native backend gets the curated Apple default, any other backend
gets the smallest quantized default on ARM-class machines and the larger
quantized default elsewhere. -/
theorem selectModelAuto_spec (model backend machine : String) :
    (model ≠ "auto" → selectModelAuto model backend machine = model) ∧
    (selectModelAuto "auto" "mlx-whisper" machine = "mlx-community/whisper-tiny-mlx") ∧
    (backend ≠ "mlx-whisper" → isArmMachine machine = true →
      selectModelAuto "auto" backend machine = "tiny-int8") ∧
    (backend ≠ "mlx-whisper" → isArmMachine machine = false →
      selectModelAuto "auto" backend machine = "base-int8") := by
  refine ⟨fun h => ?_, ?_, fun hb ha => ?_, fun hb ha => ?_⟩
  · simp [selectModelAuto, h]
  · simp [selectModelAuto]
  · simp [selectModelAuto, hb, ha]
  · simp [selectModelAuto, hb, ha]

/-- C6 witness: a non-auto model is kept; "auto" on a non-Apple backend on an
aarch64 machine resolves to "tiny-int8". -/
theorem selectModelAuto_spec_witness :
    selectModelAuto "small" "faster-whisper" "x86_64" = "small" ∧
    selectModelAuto "auto" "faster-whisper" "aarch64" = "tiny-int8" :=
  ⟨(selectModelAuto_spec "small" "faster-whisper" "x86_64").1 (by decide),
   (selectModelAuto_spec "auto" "faster-whisper" "aarch64").2.2.1 (by decide) (by decide)⟩

/-- C1 counterexample: when the engine call throws, the openai-whisper
backend's transcribe re-raises the failure to its caller instead of
degrading to an empty segment sequence (openai_whisper_api.py line 78). -/
theorem openai_transcribe_raises_on_failure :
    OpenAIWhisperBackend.transcribe (Except.error ()) = Except.error () := rfl

/-- C1 amended: only the mlx-whisper backend never raises to its caller (by
construction its embedding is a total function into segment lists), and on
engine failure it yields one segment with empty text rather than an empty
sequence; the faster-whisper and openai-whisper backends propagate engine
failures unchanged, and faster-whisper forwards a successful engine result
as-is. -/
theorem backend_transcribe_failure_policy :
    (MLXWhisperBackend.transcribe (Except.error ()) = [Segment.mk ""]) ∧
    (FasterWhisperBackend.transcribe (Except.error ()) = Except.error ()) ∧
    (OpenAIWhisperBackend.transcribe (Except.error ()) = Except.error ()) ∧
    (∀ (segs : List Segment) (fwinfo : FwTranscriptionInfo),
      FasterWhisperBackend.transcribe (Except.ok (segs, fwinfo)) = Except.ok segs) :=
  ⟨rfl, rfl, rfl, fun _ _ => rfl⟩

/-- C4 counterexample: on total engine failure the mlx backend returns a
non-empty segment sequence, and that sequence contains a segment whose
trimmed text is empty — contradicting both the zero-segments-on-failure and
the no-empty-trimmed-segment parts of the claim. -/
theorem mlx_failure_segment_not_normalized :
    MLXWhisperBackend.transcribe (Except.error ()) ≠ [] ∧
    ((MLXWhisperBackend.transcribe (Except.error ())).all
      fun s => !(pyStrip s.text == "")) = false := by
  constructor
  · intro h; cases h
  · rfl

/-- C4 amended: the mlx backend normalizes successful engine results (every
returned segment has non-empty trimmed text, and a full-text-only result
yields exactly one segment carrying the stripped text when it is non-empty
and zero segments when it is empty), but on total engine failure it yields
one segment with empty text rather than zero segments; the openai backend
performs no normalization — it forwards segment texts verbatim, yields one
segment with the full response text when no segment breakdown is present,
and propagates engine failure. -/
theorem backend_normalization_spec (r : MlxResult) (t : String)
    (sg : OpenAISegment) (l : List OpenAISegment) :
    (((MLXWhisperBackend.transcribe (Except.ok r)).all
        fun s => !(pyStrip s.text == "")) = true) ∧
    (MLXWhisperBackend.transcribe (Except.ok (MlxResult.dict none (some t))) =
      if pyStrip t == "" then [] else [⟨pyStrip t⟩]) ∧
    (MLXWhisperBackend.transcribe (Except.error ()) = [⟨""⟩]) ∧
    (OpenAIWhisperBackend.transcribe (Except.ok ⟨some (sg :: l), t⟩) =
      Except.ok ((sg :: l).map fun g => ⟨g.text⟩)) ∧
    (OpenAIWhisperBackend.transcribe (Except.ok ⟨none, t⟩) = Except.ok [⟨t⟩]) ∧
    (OpenAIWhisperBackend.transcribe (Except.error ()) = Except.error ()) := by
  refine ⟨?_, ?_, rfl, rfl, rfl, rfl⟩
  · cases r with
    | nonDict => rfl
    | dict segments? text? =>
      cases segments? with
      | some segs =>
        cases segs with
        | cons seg rest => exact mlxSegmentsOf_all_stripped (seg :: rest)
        | nil =>
          cases text? with
          | none => rfl
          | some t' =>
            show ((if pyStrip t' == "" then ([] : List Segment)
                else [⟨pyStrip t'⟩]).all fun s => !(pyStrip s.text == "")) = true
            by_cases h : pyStrip t' == ""
            · rw [if_pos h]; rfl
            · rw [if_neg h, List.all_cons]
              have h2 := pyStrip_strip_ne_empty (t := t') (by simpa using h)
              simp only [Bool.and_eq_true]
              exact ⟨by simpa using h2, rfl⟩
      | none =>
        cases text? with
        | none => rfl
        | some t' =>
          show ((if pyStrip t' == "" then ([] : List Segment)
              else [⟨pyStrip t'⟩]).all fun s => !(pyStrip s.text == "")) = true
          by_cases h : pyStrip t' == ""
          · rw [if_pos h]; rfl
          · rw [if_neg h, List.all_cons]
            have h2 := pyStrip_strip_ne_empty (t := t') (by simpa using h)
            simp only [Bool.and_eq_true]
            exact ⟨by simpa using h2, rfl⟩
  · rfl

/-- C7 counterexample: with the openai package installed and a credential
supplied, construction with an unsupported model name succeeds (substituting
"whisper-1") instead of failing with BackendInitializationFailure. -/
theorem openai_init_accepts_unsupported_model :
    OpenAIWhisperBackend.init true "not-a-real-model" (some "sk-test") none =
      Except.ok ⟨"whisper-1"⟩ := rfl

/-- C7 amended: construction fails with BackendInitializationFailure exactly
for a missing dependency or a missing credential; an unsupported model name
never fails construction — the openai backend substitutes "whisper-1" and
the mlx backend falls back to its tiny default. -/
theorem backend_init_failure_modes (model : String) (kw env : Option String) :
    (OpenAIWhisperBackend.init false model kw env =
      Except.error BackendInitError.importError) ∧
    (pyTruthy kw = false → pyTruthy env = false →
      OpenAIWhisperBackend.init true model kw env =
        Except.error BackendInitError.missingCredential) ∧
    (pyTruthy kw = true ∨ pyTruthy env = true →
      OpenAIWhisperBackend.init true model kw env =
        Except.ok ⟨if ["whisper-1"].contains model then model else "whisper-1"⟩) ∧
    (MLXWhisperBackend.init false model =
      Except.error BackendInitError.importError) ∧
    (strStarts model "mlx-community/" = false →
      ["tiny", "base", "small", "medium", "large"].contains model = false →
      MLXWhisperBackend.init true model =
        Except.ok "mlx-community/whisper-tiny-mlx") := by
  refine ⟨rfl, fun hk he => ?_, fun hkey => ?_, rfl, fun h1 h2 => ?_⟩
  · simp [OpenAIWhisperBackend.init, hk, he]
  · have hak : pyTruthy (if pyTruthy kw then kw else env) = true := by
      rcases hkey with hk | he
      · simp [hk]
      · by_cases hk : pyTruthy kw
        · simp [hk]
        · simp [hk, he]
    simp only [OpenAIWhisperBackend.init, Bool.not_true, Bool.false_eq_true,
      if_false, hak]
    by_cases hm : ["whisper-1"].contains model = true
    · rw [if_pos hm, if_pos hm]
    · rw [if_neg hm, if_neg hm]
  · show (if !true then _ else _) = _
    rw [if_neg (by decide), if_neg (by rw [h1]; decide), if_neg (by rw [h2]; decide)]

/-- C7 amended witness: with no api key anywhere, openai construction fails
with the missing-credential error. -/
theorem backend_init_failure_modes_witness :
    OpenAIWhisperBackend.init true "whisper-1" none none =
      Except.error BackendInitError.missingCredential :=
  (backend_init_failure_modes "whisper-1" none none).2.1 rfl rfl

/-! ### Helper lemmas about the session handler -/

/-- The handler's segment-collection loop computes exactly the spec's
filter-map: stripped texts of segments whose stripped text is non-empty. -/
theorem collectSegmentTexts_eq (segments : List Segment) :
    collectSegmentTexts segments =
      (segments.map fun g => pyStrip g.text).filter fun t => !(t == "") := by
  induction segments with
  | nil => rfl
  | cons seg rest ih =>
    unfold collectSegmentTexts
    by_cases h0 : seg.text == ""
    · have he : seg.text = "" := by simpa using h0
      rw [if_pos h0, List.map_cons, List.filter_cons, he]
      simp only [show pyStrip "" = "" from rfl]
      rw [if_neg (by decide)]
      exact ih
    · rw [if_neg h0, List.map_cons, List.filter_cons]
      by_cases h1 : pyStrip seg.text == ""
      · rw [if_pos h1, if_neg (by simpa using h1)]
        exact ih
      · rw [if_neg h1, if_pos (by simpa using h1)]
        rw [ih]

/-- No `handle_event` step changes the cached info event, and any info
event it emits is exactly the cached one. -/
theorem handle_event_info_frame (s : HandlerState)
    (backend : TranscriptionRequest → Except Unit (List Segment)) (e : Ev)
    (out : HandleOut) (h : handle_event s backend e = Except.ok out) :
    out.state.wyomingInfoEvent = s.wyomingInfoEvent ∧
    ∀ i, OutEvent.info i ∈ out.emitted → i = s.wyomingInfoEvent := by
  cases e with
  | audioChunk rate width channels =>
    cases hw : s.wavFile with
    | none =>
      simp only [handle_event, hw, Except.ok.injEq] at h
      subst h
      exact ⟨rfl, fun i hi => by cases hi⟩
    | some f =>
      simp only [handle_event, hw, Except.ok.injEq] at h
      subst h
      exact ⟨rfl, fun i hi => by cases hi⟩
  | audioStop =>
    cases hw : s.wavFile with
    | none => simp [handle_event, hw] at h
    | some f =>
      simp only [handle_event, hw, Except.ok.injEq] at h
      subst h
      refine ⟨rfl, fun i hi => ?_⟩
      have h' := List.mem_singleton.mp hi
      cases h'
  | transcribe language =>
    by_cases hp : pyTruthy language
    · rw [show handle_event s backend (Ev.transcribe language) =
          Except.ok ⟨[], { s with language := language }, true⟩ from by
            simp [handle_event, hp]] at h
      injection h with h
      subst h
      exact ⟨rfl, fun i hi => by cases hi⟩
    · rw [show handle_event s backend (Ev.transcribe language) =
          Except.ok ⟨[], s, true⟩ from by simp [handle_event, hp]] at h
      injection h with h
      subst h
      exact ⟨rfl, fun i hi => by cases hi⟩
  | describe =>
    simp only [handle_event, Except.ok.injEq] at h
    subst h
    refine ⟨rfl, fun i hi => ?_⟩
    have h' := List.mem_singleton.mp hi
    injection h'
  | other =>
    simp only [handle_event, Except.ok.injEq] at h
    subst h
    exact ⟨rfl, fun i hi => by cases hi⟩

/-- Over any event sequence, the cached info event is preserved and every
info event in the trace equals the starting one. -/
theorem runEvents_info_invariant
    (backend : TranscriptionRequest → Except Unit (List Segment))
    (evs : List Ev) : ∀ s : HandlerState,
    (runEvents backend s evs).2.wyomingInfoEvent = s.wyomingInfoEvent ∧
    ∀ i, OutEvent.info i ∈ (runEvents backend s evs).1 →
      i = s.wyomingInfoEvent := by
  induction evs with
  | nil => exact fun s => ⟨rfl, fun i hi => by cases hi⟩
  | cons e rest ih =>
    intro s
    rw [runEvents]
    cases hh : handle_event s backend e with
    | error err => exact ⟨rfl, fun i hi => by cases hi⟩
    | ok out =>
      have hframe := handle_event_info_frame s backend e out hh
      by_cases hk : out.keepOpen
      · simp only [hk, if_true]
        have hrest := ih out.state
        refine ⟨hrest.1.trans hframe.1, fun i hi => ?_⟩
        rcases List.mem_append.mp hi with h1 | h1
        · exact hframe.2 i h1
        · exact (hrest.2 i h1).trans hframe.1
      · simp only [hk, if_false]
        exact ⟨hframe.1, hframe.2⟩

/-- C2: for an utterance ended by AudioStop (a wave file is open), the
handler emits exactly one Transcript reply and never propagates a backend
failure; when the backend call or the consumption of its segments raises,
the reply text is the empty string, carrying no backend error detail. -/
theorem audio_stop_single_transcript (s : HandlerState)
    (backend : TranscriptionRequest → Except Unit (List Segment))
    (h : s.wavFile.isSome = true) :
    ∃ text,
      handle_event s backend Ev.audioStop =
        Except.ok ⟨[OutEvent.transcript text],
          { s with wavFile := none, language := s.cliLanguage }, false⟩ ∧
      (backend ⟨s.language, s.initialPrompt, s.beamSize⟩ = Except.error () →
        text = "") := by
  rcases hw : s.wavFile with _ | f
  · rw [hw] at h; cases h
  rcases hb : backend ⟨s.language, s.initialPrompt, s.beamSize⟩ with e | segments
  · exact ⟨"", by simp [handle_event, hw, hb], fun _ => rfl⟩
  · exact ⟨pyJoin " " (collectSegmentTexts segments),
      by simp [handle_event, hw, hb], fun hc => by simp at hc⟩

/-- C2 witness: a concrete session with an open buffer and a backend that
raises still gets exactly one transcript reply, with empty text. -/
theorem audio_stop_single_transcript_witness :
    ∃ text,
      handle_event (HandlerState.mk none none 5 ⟨[]⟩ none (some (16000, 2, 1)))
          (fun _ => Except.error ()) Ev.audioStop =
        Except.ok ⟨[OutEvent.transcript text],
          { HandlerState.mk none none 5 ⟨[]⟩ none (some (16000, 2, 1)) with
              wavFile := none, language := none }, false⟩ ∧
      ((fun _ => Except.error () :
          TranscriptionRequest → Except Unit (List Segment))
            ⟨none, none, 5⟩ = Except.error () → text = "") :=
  audio_stop_single_transcript
    (HandlerState.mk none none 5 ⟨[]⟩ none (some (16000, 2, 1)))
    (fun _ => Except.error ()) rfl

/-- C3: the transcript text emitted for a successful backend result equals
the spec's TranscriptResult (trimmed non-empty segment texts joined by one
space, in segment order); on texts ["hello", "  ", "world"] this gives
"hello world", and on zero segments the empty string. -/
theorem transcript_text_normalization (s : HandlerState)
    (segments : List Segment) (h : s.wavFile.isSome = true) :
    (handle_event s (fun _ => Except.ok segments) Ev.audioStop =
      Except.ok ⟨[OutEvent.transcript (specTranscriptResult segments)],
        { s with wavFile := none, language := s.cliLanguage }, false⟩) ∧
    specTranscriptResult [⟨"hello"⟩, ⟨"  "⟩, ⟨"world"⟩] = "hello world" ∧
    specTranscriptResult ([] : List Segment) = "" := by
  refine ⟨?_, by decide, rfl⟩
  rcases hw : s.wavFile with _ | f
  · rw [hw] at h; cases h
  simp [handle_event, hw, specTranscriptResult, collectSegmentTexts_eq]

/-- C3 witness: concrete run with the spec's example segments. -/
theorem transcript_text_normalization_witness :
    handle_event (HandlerState.mk none none 5 ⟨[]⟩ none (some (16000, 2, 1)))
        (fun _ => Except.ok [⟨"hello"⟩, ⟨"  "⟩, ⟨"world"⟩]) Ev.audioStop =
      Except.ok ⟨[OutEvent.transcript
          (specTranscriptResult [⟨"hello"⟩, ⟨"  "⟩, ⟨"world"⟩])],
        { HandlerState.mk none none 5 ⟨[]⟩ none (some (16000, 2, 1)) with
            wavFile := none, language := none }, false⟩ :=
  (transcript_text_normalization
    (HandlerState.mk none none 5 ⟨[]⟩ none (some (16000, 2, 1)))
    [⟨"hello"⟩, ⟨"  "⟩, ⟨"world"⟩] rfl).1

/-- C8 counterexample: handling AudioStop makes `handle_event` return False
to the server loop (handler.py line 110) — every other event returns True —
so the handler does not stay available for further events on that
connection. -/
theorem audio_stop_returns_false :
    (handle_event (HandlerState.mk none none 5 ⟨[]⟩ none (some (16000, 2, 1)))
        (fun _ => Except.ok []) Ev.audioStop).map HandleOut.keepOpen =
      Except.ok false := rfl

/-- C8 amended: after AudioStop is handled the session's language reverts to
the configured startup default and no buffer is open, but `handle_event`
returns False, directing the serving loop to end event handling for that
connection; the next utterance arrives on a fresh connection whose handler
again starts from the configured default language. -/
theorem audio_stop_resets_session (s : HandlerState)
    (backend : TranscriptionRequest → Except Unit (List Segment))
    (h : s.wavFile.isSome = true) :
    ∃ text,
      handle_event s backend Ev.audioStop =
        Except.ok ⟨[OutEvent.transcript text],
          { s with wavFile := none, language := s.cliLanguage }, false⟩ := by
  rcases hw : s.wavFile with _ | f
  · rw [hw] at h; cases h
  rcases hb : backend ⟨s.language, s.initialPrompt, s.beamSize⟩ with e | segments
  · exact ⟨"", by simp [handle_event, hw, hb]⟩
  · exact ⟨pyJoin " " (collectSegmentTexts segments),
      by simp [handle_event, hw, hb]⟩

/-- C8 amended witness: concrete AudioStop resets language to the startup
default and closes the buffer, returning False. -/
theorem audio_stop_resets_session_witness :
    ∃ text,
      handle_event
          (HandlerState.mk (some "en") none 5 ⟨[]⟩ (some "fr") (some (16000, 2, 1)))
          (fun _ => Except.ok []) Ev.audioStop =
        Except.ok ⟨[OutEvent.transcript text],
          { HandlerState.mk (some "en") none 5 ⟨[]⟩ (some "fr")
              (some (16000, 2, 1)) with
              wavFile := none, language := some "en" }, false⟩ :=
  audio_stop_resets_session
    (HandlerState.mk (some "en") none 5 ⟨[]⟩ (some "fr") (some (16000, 2, 1)))
    (fun _ => Except.ok []) rfl

/-- C9: the capability descriptor is built once at startup from the
backend's attribution, version, supported languages and resolved model
name; Describe at any state is answered with exactly the cached descriptor
and changes no state; no event changes the cached descriptor, so replies
before and after any handled event — in particular a completed
transcription — are identical. -/
theorem describe_served_verbatim
    (backendName model_name serverVersion : String) (b : BackendDescriptor)
    (cliLang prompt : Option String) (beam : Int)
    (backend : TranscriptionRequest → Except Unit (List Segment))
    (evs : List Ev) (s : HandlerState) (e : Ev) (out : HandleOut) :
    (handle_event s backend Ev.describe =
      Except.ok ⟨[OutEvent.info s.wyomingInfoEvent], s, true⟩) ∧
    (handle_event s backend e = Except.ok out →
      handle_event out.state backend Ev.describe =
        Except.ok ⟨[OutEvent.info s.wyomingInfoEvent], out.state, true⟩) ∧
    (∀ i, OutEvent.info i ∈ (runEvents backend
        (HandlerState.initial
          (buildWyomingInfo backendName model_name serverVersion b)
          cliLang prompt beam) evs).1 →
      i = buildWyomingInfo backendName model_name serverVersion b) ∧
    ((runEvents backend
        (HandlerState.initial
          (buildWyomingInfo backendName model_name serverVersion b)
          cliLang prompt beam) evs).2.wyomingInfoEvent =
      buildWyomingInfo backendName model_name serverVersion b) := by
  refine ⟨rfl, fun hstep => ?_, fun i hi => ?_, ?_⟩
  · rw [show handle_event out.state backend Ev.describe =
        Except.ok ⟨[OutEvent.info out.state.wyomingInfoEvent], out.state, true⟩
      from rfl]
    rw [(handle_event_info_frame s backend e out hstep).1]
  · exact (runEvents_info_invariant backend evs _).2 i hi
  · exact (runEvents_info_invariant backend evs _).1

/-- C9 witness: after a handled event, a concrete Describe still returns
the startup descriptor, with the state unchanged. -/
theorem describe_served_verbatim_witness :
    handle_event demoState (fun _ => Except.ok []) Ev.describe =
      Except.ok ⟨[OutEvent.info demoInfo], demoState, true⟩ :=
  (describe_served_verbatim "faster-whisper" "tiny-int8" "1.0.0" demoDescriptor
    (some "en") none 5 (fun _ => Except.ok []) [] demoState Ev.other
    ⟨[], demoState, true⟩).2.1 rfl

/-- C10: a Transcribe control event with an absent or empty language leaves
the entire session state unchanged, emits nothing and keeps the session
open; only a non-empty language updates the override, and it changes no
other field. -/
theorem transcribe_event_language_only (s : HandlerState)
    (backend : TranscriptionRequest → Except Unit (List Segment))
    (lang : String) :
    (handle_event s backend (Ev.transcribe none) = Except.ok ⟨[], s, true⟩) ∧
    (handle_event s backend (Ev.transcribe (some "")) =
      Except.ok ⟨[], s, true⟩) ∧
    (lang ≠ "" →
      handle_event s backend (Ev.transcribe (some lang)) =
        Except.ok ⟨[], { s with language := some lang }, true⟩) := by
  refine ⟨rfl, rfl, fun h => ?_⟩
  simp [handle_event, pyTruthy, h]

/-- C10 witness: a concrete non-empty language-set event updates only the
language override. -/
theorem transcribe_event_language_only_witness :
    handle_event (HandlerState.mk (some "en") none 5 ⟨[]⟩ (some "en") none)
        (fun _ => Except.ok []) (Ev.transcribe (some "fr")) =
      Except.ok ⟨[], { HandlerState.mk (some "en") none 5 ⟨[]⟩ (some "en") none
        with language := some "fr" }, true⟩ :=
  (transcribe_event_language_only
    (HandlerState.mk (some "en") none 5 ⟨[]⟩ (some "en") none)
    (fun _ => Except.ok []) "fr").2.2 (by decide)

end WyomingSTT
